import Mathlib

/-!
Shallow embedding of the runtime orchestration of the virgundia game
(`src/components/game/game.ts` and the canvas render surface `lib/canvas.ts`).

JavaScript numbers are modelled as rationals (`ℚ`) where fractional values
flow (difficulties, uniform draws, health), and as integers (`ℤ`) where the
source only ever holds integers (coordinates, rarity, levels).
`Math.random()` draws are passed in explicitly as rationals in `[0, 1)`.
The asynchronous `fetch` call is modelled by an explicit
`Option String` outcome: `some text` is a successful response whose parsed
body has that `text` field, `none` is a rejected fetch / malformed body
(a thrown exception at the `await`).  Side effects (state dispatches, the
POST request, event emissions) are collected in an explicit trace.
-/

/-- A 2-D integer position (`Position` in `index.t`): the world is infinite. -/
structure Position where
  x : ℤ
  y : ℤ
deriving DecidableEq, Repr

/-- A terrain cell as used by `game.ts`: type identifier, display label,
color and the difficulty that drives the encounter probability. -/
structure Terrain where
  type : String
  label : String
  color : String
  difficulty : ℚ
deriving DecidableEq, Repr

/-- The `player` subtree of `GameState` (fields in the literal order of
`createInitialState`).  The JS `Set` fields are modelled as lists of
identifiers; only their JSON rendering matters here. -/
structure PlayerState where
  abilities : List String
  conditions : List String
  energy : ℚ
  health : ℚ
  maxEnergy : ℚ
  maxHealth : ℚ
  position : Position
  requirements : List String
  warned : Bool
  xp : ℚ
deriving DecidableEq, Repr

/-- The `ui` subtree: pause flag and the open windows (window descriptors
abstracted to their titles, which no claim inspects). -/
structure UIState where
  isPaused : Bool
  windows : List String
deriving DecidableEq, Repr

/-- The `world` subtree: the currently observed biome and terrain, both
nullable in the source (`null` before the first `updatePlayerWorldInfo`). -/
structure WorldState where
  currentBiome : Option String
  currentTerrain : Option Terrain
deriving DecidableEq, Repr

/-- The full `GameState` tree with its three subtrees. -/
structure GameState where
  player : PlayerState
  ui : UIState
  world : WorldState
deriving DecidableEq, Repr

/-- Embedding of `Game.createInitialState` (game.ts lines 51-74). -/
def createInitialState : GameState where
  player :=
    { abilities := []
      conditions := []
      energy := 100
      health := 100
      maxEnergy := 100
      maxHealth := 100
      position := { x := 0, y := 0 }
      requirements := []
      warned := false
      xp := 0 }
  ui := { isPaused := false, windows := [] }
  world := { currentBiome := none, currentTerrain := none }

/-- The domain action a key press is translated into by `Game.handleKeyPress`;
`noAction` is the fall-through (handler returns without calling anything). -/
inductive PlayerAction where
  | move (dx dy : ℤ)
  | rest
  | openInventory
  | search
  | help
  | noAction
deriving DecidableEq, Repr

/-- Embedding of `Game.handleKeyPress` (game.ts lines 109-144): re-checks the pause flag,
then switches on the key name. -/
def handleKeyPress (s : GameState) (key : String) : PlayerAction :=
  if s.ui.isPaused then .noAction
  else
    match key with
    | "ArrowLeft" => .move (-1) 0
    | "ArrowRight" => .move 1 0
    | "ArrowUp" => .move 0 (-1)
    | "ArrowDown" => .move 0 1
    | "r" => .rest
    | "i" => .openInventory
    | "s" => .search
    | "h" => .help
    | "Escape" => .help
    | _ => .noAction

/-- The `keydown` listener installed by `Game.setupEventListeners`
(game.ts lines 81-84): discards the event while paused, otherwise delegates
to `handleKeyPress`. -/
def keydownListener (s : GameState) (key : String) : PlayerAction :=
  if s.ui.isPaused then .noAction
  else handleKeyPress s key

/-- The encounter trigger test of `Game.checkForEncounters`
(game.ts lines 178-179): `encounterChance = difficulty / 10`; the function
returns early when `Math.random() > encounterChance`, so the encounter
triggers exactly when the draw is NOT greater than the chance. -/
def encounterTriggered (difficulty u : ℚ) : Bool :=
  !(decide (u > difficulty / 10))

/-- A monster catalog entry (`dataFiles/monsters.ts` shape, as consumed by
`game.ts`): rarity (lower = more common), level span, base health, the
allowed-biome list (empty = any biome) and descriptive fields that are
carried opaquely into the instance and the prompt. -/
structure Monster where
  name : String
  rarity : ℤ
  minLevel : ℤ
  maxLevel : ℤ
  baseHealth : ℚ
  validBiomes : List String
  abilities : List String
  aggression : String
  behavior : String
  description : String
  intelligence : String
  lore : String
  size : String
deriving DecidableEq, Repr

/-- The biome filter of `checkForEncounters` (game.ts lines 181-185):
keep a monster when its `validBiomes` is empty or contains the current
biome.  `currentBiome` may be `null`, in which case JS
`Array.includes(null)` on a string array is false. -/
def filterByBiome (monsters : List Monster) (currentBiome : Option String) :
    List Monster :=
  monsters.filter fun m =>
    m.validBiomes.isEmpty ||
      (match currentBiome with
       | some b => m.validBiomes.contains b
       | none => false)

/-- Embedding of `Math.max(...validMonsters.map((m) => m.rarity))` (game.ts line 188).
On the empty list JS yields `-Infinity`; that value is never consumed
(there are then no candidates to weigh), so the empty case is given an
arbitrary integer here. -/
def highestRarity : List Monster → ℤ
  | [] => 0
  | m :: ms => ms.foldl (fun acc x => max acc x.rarity) m.rarity

/-- The per-candidate weight `highestRarity - monster.rarity + 1`
(game.ts lines 192 and 202). -/
def monsterWeight (hr : ℤ) (m : Monster) : ℤ :=
  hr - m.rarity + 1

/-- Embedding of `validMonsters.reduce((sum, monster) => sum + (highestRarity -
monster.rarity + 1), 0)` (game.ts lines 191-194). -/
def totalWeight (l : List Monster) : ℤ :=
  l.foldl (fun sum m => sum + monsterWeight (highestRarity l) m) 0

/-- The linear scan `validMonsters.find((monster) => { currentWeight +=
...; return roll < currentWeight })` (game.ts lines 199-204), with the
mutable `currentWeight` accumulator made explicit. -/
def findByWeight (hr : ℤ) (roll : ℚ) : ℚ → List Monster → Option Monster
  | _, [] => none
  | cw, m :: rest =>
      let cw2 := cw + (monsterWeight hr m : ℚ)
      if roll < cw2 then some m else findByWeight hr roll cw2 rest

/-- The full selection `validMonsters.find(...) || validMonsters[0]`
(game.ts lines 200-204) as a function of the scaled roll. -/
def selectMonsterRoll (l : List Monster) (roll : ℚ) : Option Monster :=
  (findByWeight (highestRarity l) roll 0 l).orElse fun _ => l.head?

/-- Selection as a function of the raw uniform draw:
`roll = Math.random() * totalWeight` (game.ts line 196). -/
def selectMonster (l : List Monster) (u : ℚ) : Option Monster :=
  selectMonsterRoll l (u * (totalWeight l : ℚ))

/-- Following the words of the spec: the cumulative weight of the first `k` candidates
in catalog iteration order (used to compare the scan of the code against the
specified first-cumulative-weight-exceeding-the-draw selection rule). -/
def specCumulativeWeight (hr : ℤ) (l : List Monster) (k : ℕ) : ℤ :=
  ((l.take k).map (monsterWeight hr)).sum

/-- A concrete common catalog entry used to instantiate theorems. -/
def commonMonster : Monster where
  name := "Mire Rat"
  rarity := 1
  minLevel := 1
  maxLevel := 3
  baseHealth := 10
  validBiomes := []
  abilities := []
  aggression := "low"
  behavior := "skittish"
  description := "a small swamp rodent"
  intelligence := "animal"
  lore := "common vermin"
  size := "small"

/-- A concrete rare catalog entry used to instantiate theorems. -/
def rareMonster : Monster :=
  { commonMonster with
      name := "Bog Wyrm"
      rarity := 5
      minLevel := 4
      maxLevel := 9
      baseHealth := 25 }

/-- A two-entry catalog matching the spec scenario `[{rarity:1}, {rarity:5}]`. -/
def testCatalog : List Monster := [commonMonster, rareMonster]

/-- JS `Math.round`: round half toward positive infinity,
`Math.round(x) = ⌊x + 1/2⌋` for finite numbers. -/
def jsRound (q : ℚ) : ℤ :=
  ⌊q + 1 / 2⌋

/-- Embedding of `Math.round(Math.random() * (chosenMonster.maxLevel -
chosenMonster.minLevel) + chosenMonster.minLevel)` (game.ts lines 211-214)
as a function of the uniform draw. -/
def rollLevel (m : Monster) (u : ℚ) : ℤ :=
  jsRound (u * ((m.maxLevel : ℚ) - (m.minLevel : ℚ)) + (m.minLevel : ℚ))

/-- The per-encounter monster instance literal of `checkForEncounters`
(game.ts lines 205-219), fields in literal order. -/
structure MonsterInstance where
  abilities : List String
  aggression : String
  behavior : String
  description : String
  intelligence : String
  level : ℤ
  lore : String
  maxHealth : ℚ
  name : String
  size : String
deriving DecidableEq, Repr

/-- Construction of the instance from the chosen template: the fields are
copied, the level is rolled, and `monster.maxHealth = monster.level *
chosenMonster.baseHealth` replaces the `0` placeholder (game.ts line 220). -/
def mkMonsterInstance (m : Monster) (u : ℚ) : MonsterInstance :=
  let level := rollLevel m u
  { abilities := m.abilities
    aggression := m.aggression
    behavior := m.behavior
    description := m.description
    intelligence := m.intelligence
    level := level
    lore := m.lore
    maxHealth := (level : ℚ) * m.baseHealth
    name := m.name
    size := m.size }

/-- JS template-literal rendering of a possibly-`undefined` value: in
`` `${size}px ${name} ${style}` `` an `undefined` argument is interpolated
as the literal text `undefined`. -/
def jsTemplateOpt (v : Option String) : String :=
  match v with
  | some s => s
  | none => "undefined"

/-- The mutable drawing state of the `Canvas` render surface
(`lib/canvas.ts`): only the fields touched by `setFont`/`setColor`. -/
structure CanvasState where
  color : String
  fontSize : ℕ
  font : String
deriving DecidableEq, Repr

/-- Embedding of `Canvas.setFont` (canvas.ts lines 56-58):
`this.font = ` `` `${size}px ${name} ${style}` `` with `style` an optional
parameter. -/
def Canvas.setFont (c : CanvasState) (size : ℕ) (name : String)
    (style : Option String) : CanvasState :=
  { c with font := toString size ++ "px " ++ name ++ " " ++ jsTemplateOpt style }

/-- A JSON value, used to model the arguments of `JSON.stringify`. -/
inductive JsValue where
  | str (s : String)
  | num (q : ℚ)
  | bool (b : Bool)
  | arr (elems : List JsValue)
  | obj (fields : List (String × JsValue))
deriving Repr

/-- Decimal rendering of a JS number; integers render as in JS, and no
claim inspects the rendering of non-integral values. -/
def jsNumToString (q : ℚ) : String :=
  if q.den = 1 then toString q.num else toString q

/-- JSON escaping of one character (quote and backslash, the cases that
can arise in the serialized payloads here). -/
def jsEscapeChar (c : Char) : String :=
  if c = '\\' then "\\\\"
  else if c = '"' then "\\\""
  else String.singleton c

/-- JSON escaping of a string. -/
def jsEscape (s : String) : String :=
  String.join (s.data.map jsEscapeChar)

mutual

/-- Rendering by `JSON.stringify` of a JSON value. -/
def jsStringify : JsValue → String
  | .str s => "\"" ++ jsEscape s ++ "\""
  | .num q => jsNumToString q
  | .bool b => if b then "true" else "false"
  | .arr elems => "[" ++ jsStringifyArray elems ++ "]"
  | .obj fields => "\x7b" ++ jsStringifyFields fields ++ "\x7d"

/-- Comma-separated rendering of the elements of a JSON array. -/
def jsStringifyArray : List JsValue → String
  | [] => ""
  | [v] => jsStringify v
  | v :: rest => jsStringify v ++ "," ++ jsStringifyArray rest

/-- Comma-separated rendering of the fields of a JSON object. -/
def jsStringifyFields : List (String × JsValue) → String
  | [] => ""
  | [(k, v)] => "\"" ++ jsEscape k ++ "\":" ++ jsStringify v
  | (k, v) :: rest =>
      "\"" ++ jsEscape k ++ "\":" ++ jsStringify v ++ "," ++
        jsStringifyFields rest

end

/-- Rendering of a `Position` as `JSON.stringify` sees it. -/
def positionJson (p : Position) : JsValue :=
  .obj [("x", .num (p.x : ℚ)), ("y", .num (p.y : ℚ))]

/-- The JSON shape of the `player` subtree as `JSON.stringify` sees it
(fields in `createInitialState` literal order).  JS serializes a `Set` as
an empty object, so the ability/condition/requirement sets render as
empty objects regardless of their members. -/
def playerJson (p : PlayerState) : JsValue :=
  .obj
    [("abilities", .obj []),
     ("conditions", .obj []),
     ("energy", .num p.energy),
     ("health", .num p.health),
     ("maxEnergy", .num p.maxEnergy),
     ("maxHealth", .num p.maxHealth),
     ("position", positionJson p.position),
     ("requirements", .obj []),
     ("warned", .bool p.warned),
     ("xp", .num p.xp)]

/-- The JSON shape of the per-encounter monster instance (fields in the
object-literal order of game.ts lines 205-219). -/
def monsterInstanceJson (m : MonsterInstance) : JsValue :=
  .obj
    [("abilities", .arr (m.abilities.map .str)),
     ("aggression", .str m.aggression),
     ("behavior", .str m.behavior),
     ("description", .str m.description),
     ("intelligence", .str m.intelligence),
     ("level", .num (m.level : ℚ)),
     ("lore", .str m.lore),
     ("maxHealth", .num m.maxHealth),
     ("name", .str m.name),
     ("size", .str m.size)]

/-- The `{terrain, biomeName}` record returned by `World.getTerrain`. -/
structure TerrainInfo where
  terrain : Terrain
  biomeName : String
deriving DecidableEq, Repr

/-- One `{x, y, terrain}` tuple returned by `World.getAdjacentTerrain`. -/
structure AdjacentCell where
  x : ℤ
  y : ℤ
  terrain : TerrainInfo
deriving DecidableEq, Repr

/-- The `World` collaborator interface exactly as `game.ts` consumes it:
a pure terrain lookup and a radius-based neighborhood query (the `World`
class body is outside the sources under review; `game.ts` relies only on
these two pure methods). -/
structure WorldModel where
  getTerrain : ℤ → ℤ → TerrainInfo
  getAdjacentTerrain : ℤ → ℤ → ℕ → List AdjacentCell

/-- JS template-literal rendering of a possibly-`null` string: `null` is
interpolated as the literal text `null`. -/
def jsTemplateNullable (v : Option String) : String :=
  match v with
  | some s => s
  | none => "null"

/-- The current-terrain context string
`` `${x},${y}: ${currentBiome} ${currentTerrain.type}` `` (game.ts line 224). -/
def currentTerrainString (pos : Position) (biome : Option String)
    (t : Terrain) : String :=
  toString pos.x ++ "," ++ toString pos.y ++ ": " ++
    jsTemplateNullable biome ++ " " ++ t.type

/-- The per-neighbor context string
`` `${t.x},${t.y}: ${t.terrain.biomeName} ${t.terrain.terrain.type}` ``
(game.ts line 232). -/
def adjacentCellString (c : AdjacentCell) : String :=
  toString c.x ++ "," ++ toString c.y ++ ": " ++ c.terrain.biomeName ++
    " " ++ c.terrain.terrain.type

/-- An observable side effect of the encounter flow, in occurrence order:
a `state.dispatch` of the `ui` pause flag, the `fetch` POST to `/api/gen`
with its body string, or an `events.emit(WINDOW_OPEN, ...)` with title,
content lines and button labels. -/
inductive Effect where
  | dispatchUIPaused (isPaused : Bool)
  | postRequest (url : String) (body : String)
  | emitWindowOpen (title : String) (content : List String)
      (buttons : List String)
deriving DecidableEq, Repr

/-- Whether an effect is the POST to the text-generation collaborator. -/
def Effect.isPost : Effect → Bool
  | .postRequest _ _ => true
  | _ => false

/-- Embedding of `Game.generateAi` (game.ts lines 359-371): dispatch the pause, POST
`JSON.stringify({prompt})` to `/api/gen`, await the parsed response body,
dispatch the resume, return the `text` field of the body.  `fetchResult = none`
models a rejected fetch or a body on which `resp.json()` throws: the
function body has no catch, so execution aborts after the POST — the
resume dispatch is never reached and no text is produced. -/
def generateAi (prompt : String) (fetchResult : Option String) :
    List Effect × Option String :=
  let startEffects := [Effect.dispatchUIPaused true,
    Effect.postRequest "/api/gen"
      (jsStringify (.obj [("prompt", .str prompt)]))]
  match fetchResult with
  | none => (startEffects, none)
  | some text => (startEffects ++ [Effect.dispatchUIPaused false], some text)

/-- The result of one `checkForEncounters` call: an early return (no
observed terrain / trigger draw failed), the uncaught TypeError from
reading a field of an `undefined` chosen monster (empty candidate set),
an in-flight failure of the AI call, or a completed encounter. -/
inductive CheckOutcome where
  | noTerrain
  | noTrigger
  | undefinedMonsterError
  | aiCallError
  | encounter (inst : MonsterInstance)
deriving DecidableEq, Repr

/-- Embedding of `Game.checkForEncounters` (game.ts lines 171-249).  `u1` is the
trigger draw, `u2` the monster-selection draw, `u3` the level draw, all
uniform in `[0, 1)`; `fetchResult` is the outcome of the awaited AI call.
The synchronous early returns produce no effects; the encounter path
delegates to `generateAi` and then emits the WINDOW_OPEN event. -/
def checkForEncounters (w : WorldModel) (monsters : List Monster)
    (s : GameState) (u1 u2 u3 : ℚ) (fetchResult : Option String) :
    CheckOutcome × List Effect :=
  match s.world.currentTerrain with
  | none => (.noTerrain, [])
  | some terrain =>
      if !encounterTriggered terrain.difficulty u1 then (.noTrigger, [])
      else
        let validMonsters := filterByBiome monsters s.world.currentBiome
        match selectMonster validMonsters u2 with
        | none => (.undefinedMonsterError, [])
        | some chosenMonster =>
            let monster := mkMonsterInstance chosenMonster u3
            let currentTerrain :=
              currentTerrainString s.player.position s.world.currentBiome
                terrain
            let surroundingTerrain :=
              (w.getAdjacentTerrain s.player.position.x s.player.position.y
                2).map adjacentCellString
            let prompt := jsStringify (.obj
              [("currentTerrain", .str currentTerrain),
               ("monster", monsterInstanceJson monster),
               ("playerState", playerJson s.player),
               ("surroundingTerrain",
                 .arr (surroundingTerrain.map .str))])
            match generateAi prompt fetchResult with
            | (effs, none) => (.aiCallError, effs)
            | (effs, some text) =>
                (.encounter monster,
                  effs ++ [Effect.emitWindowOpen "Encounter!" [text]
                    ["Close"]])

/-- Embedding of `Game.updatePlayerWorldInfo` (game.ts lines 158-169): look up the
terrain at the player position and dispatch both fields of the `world`
subtree (the dispatch merge replaces the whole subtree, whose only fields
these are). -/
def updatePlayerWorldInfo (w : WorldModel) (s : GameState) : GameState :=
  let info := w.getTerrain s.player.position.x s.player.position.y
  { s with
      world := { currentBiome := some info.biomeName,
                 currentTerrain := some info.terrain } }

/-- The PLAYER_MOVE subscription (game.ts lines 87-91): it calls
`checkForEncounters()` first — whose synchronous prefix reads the state
before any world-info update — and `updatePlayerWorldInfo()` second (the
final `draw()` is render-only).  The result pairs the outcome and effects
of the encounter check with the state left by the world-info dispatch. -/
def playerMoveHandler (w : WorldModel) (monsters : List Monster)
    (s : GameState) (u1 u2 u3 : ℚ) (fetchResult : Option String) :
    (CheckOutcome × List Effect) × GameState :=
  (checkForEncounters w monsters s u1 u2 u3 fetchResult,
    updatePlayerWorldInfo w s)

/-- A calm concrete terrain (difficulty 0). -/
def calmTerrain : Terrain where
  type := "meadow"
  label := "."
  color := "#7c5"
  difficulty := 0

/-- A dangerous concrete terrain (difficulty 10). -/
def dangerTerrain : Terrain where
  type := "bog"
  label := "~"
  color := "#262"
  difficulty := 10

/-- A concrete world whose every cell is dangerous swamp and whose
neighborhood query returns nothing. -/
def swampWorld : WorldModel where
  getTerrain := fun _ _ => { terrain := dangerTerrain, biomeName := "swamp" }
  getAdjacentTerrain := fun _ _ _ => []

/-- A concrete state observing the dangerous swamp terrain. -/
def swampState : GameState :=
  { createInitialState with
      world := { currentBiome := some "swamp",
                 currentTerrain := some dangerTerrain } }

/-- A concrete state still observing the calm terrain of the previous
position. -/
def staleState : GameState :=
  { createInitialState with
      world := { currentBiome := some "swamp",
                 currentTerrain := some calmTerrain } }

/-- A catalog entry restricted to a biome no test state is in. -/
def desertMonster : Monster :=
  { commonMonster with name := "Dune Stalker", validBiomes := ["desert"] }

/-- A world returning calm terrain from `getTerrain` but with the same
(empty) neighborhood query as `swampWorld`. -/
def calmLookupWorld : WorldModel where
  getTerrain := fun _ _ => { terrain := calmTerrain, biomeName := "meadow" }
  getAdjacentTerrain := fun _ _ _ => []

lemma specCumulativeWeight_cons (hr : ℤ) (m : Monster) (ms : List Monster)
    (k : ℕ) :
    specCumulativeWeight hr (m :: ms) (k + 1) =
      monsterWeight hr m + specCumulativeWeight hr ms k := by
  simp [specCumulativeWeight]

lemma foldl_add_eq_sum (w : Monster → ℤ) :
    ∀ (l : List Monster) (a : ℤ),
      l.foldl (fun s m => s + w m) a = a + (l.map w).sum := by
  intro l
  induction l with
  | nil => intro a; simp
  | cons m ms ih =>
      intro a
      simp only [List.foldl_cons, List.map_cons, List.sum_cons]
      rw [ih]
      ring

lemma totalWeight_eq_sum (l : List Monster) :
    totalWeight l = (l.map (monsterWeight (highestRarity l))).sum := by
  simp [totalWeight, foldl_add_eq_sum]

lemma le_foldl_max_rarity :
    ∀ (ms : List Monster) (b : ℤ),
      b ≤ ms.foldl (fun acc x => max acc x.rarity) b := by
  intro ms
  induction ms with
  | nil => intro b; exact le_refl b
  | cons x xs ih =>
      intro b
      calc b ≤ max b x.rarity := le_max_left _ _
        _ ≤ xs.foldl (fun acc y => max acc y.rarity) (max b x.rarity) := ih _

lemma mem_rarity_le_foldl :
    ∀ (ms : List Monster) (b : ℤ) (x : Monster), x ∈ ms →
      x.rarity ≤ ms.foldl (fun acc y => max acc y.rarity) b := by
  intro ms
  induction ms with
  | nil => intro b x hx; cases hx
  | cons y ys ih =>
      intro b x hx
      rcases List.mem_cons.mp hx with h | h
      · subst h
        calc x.rarity ≤ max b x.rarity := le_max_right _ _
          _ ≤ ys.foldl (fun acc z => max acc z.rarity) (max b x.rarity) :=
              le_foldl_max_rarity _ _
      · exact ih _ x h

lemma rarity_le_highestRarity {l : List Monster} {m : Monster} (hm : m ∈ l) :
    m.rarity ≤ highestRarity l := by
  cases l with
  | nil => cases hm
  | cons x xs =>
      rcases List.mem_cons.mp hm with h | h
      · subst h
        exact le_foldl_max_rarity xs m.rarity
      · exact mem_rarity_le_foldl xs x.rarity m h

lemma findByWeight_characterization (hr : ℤ) (r : ℚ) :
    ∀ (l : List Monster) (acc : ℚ),
      (findByWeight hr r acc l = none ∧
        ∀ k : ℕ, k < l.length →
          acc + (specCumulativeWeight hr l (k + 1) : ℚ) ≤ r)
      ∨ ∃ i : Fin l.length,
          findByWeight hr r acc l = some (l.get i)
          ∧ r < acc + (specCumulativeWeight hr l (i.val + 1) : ℚ)
          ∧ ∀ j < i.val,
              acc + (specCumulativeWeight hr l (j + 1) : ℚ) ≤ r := by
  intro l
  induction l with
  | nil =>
      intro acc
      left
      exact ⟨rfl, by intro k hk; simp at hk⟩
  | cons m ms ih =>
      intro acc
      by_cases hlt : r < acc + (monsterWeight hr m : ℚ)
      · right
        refine ⟨⟨0, by simp⟩, ?_, ?_, ?_⟩
        · simp [findByWeight, hlt]
        · simpa [specCumulativeWeight] using hlt
        · intro j hj; simp at hj
      · have hfind : findByWeight hr r acc (m :: ms) =
            findByWeight hr r (acc + (monsterWeight hr m : ℚ)) ms := by
          simp [findByWeight, hlt]
        rcases ih (acc + (monsterWeight hr m : ℚ)) with
          ⟨hnone, hall⟩ | ⟨i, hsome, hcum, hfirst⟩
        · left
          refine ⟨hfind.trans hnone, ?_⟩
          intro k hk
          cases k with
          | zero =>
              simpa [specCumulativeWeight] using (not_lt.mp hlt)
          | succ k2 =>
              have hk2 : k2 < ms.length := by
                simp only [List.length_cons] at hk
                omega
              have := hall k2 hk2
              rw [specCumulativeWeight_cons]
              push_cast
              push_cast at this
              linarith
        · right
          refine ⟨⟨i.val + 1, by simpa using Nat.succ_lt_succ i.isLt⟩, ?_, ?_, ?_⟩
          · rw [hfind, hsome]
            congr 1
          · rw [specCumulativeWeight_cons]
            push_cast
            linarith
          · intro j hj
            simp only [] at hj
            cases j with
            | zero =>
                simpa [specCumulativeWeight] using (not_lt.mp hlt)
            | succ j2 =>
                have hj2 : j2 < i.val := by
                  have : j2 + 1 < i.val + 1 := hj
                  omega
                have := hfirst j2 hj2
                rw [specCumulativeWeight_cons]
                push_cast
                push_cast at this
                linarith

lemma filterByBiome_testCatalog :
    filterByBiome testCatalog (some "swamp") = testCatalog := by
  simp [filterByBiome, testCatalog, commonMonster, rareMonster]

lemma select_testCatalog_zero :
    selectMonster (filterByBiome testCatalog (some "swamp")) 0 =
      some commonMonster := by
  rw [filterByBiome_testCatalog]
  simp [selectMonster, selectMonsterRoll, findByWeight, testCatalog]
  norm_num [monsterWeight, highestRarity, commonMonster, rareMonster]

lemma checkForEncounters_outcome_encounter (w : WorldModel)
    (ms : List Monster) (s : GameState) (u1 u2 u3 : ℚ) (t : Terrain)
    (m : Monster) (text : String)
    (ht : s.world.currentTerrain = some t)
    (htrig : encounterTriggered t.difficulty u1 = true)
    (hsel : selectMonster (filterByBiome ms s.world.currentBiome) u2 =
      some m) :
    (checkForEncounters w ms s u1 u2 u3 (some text)).1 =
      CheckOutcome.encounter (mkMonsterInstance m u3) := by
  unfold checkForEncounters
  rw [ht]
  simp [htrig, hsel, generateAi]

/-- C1: whenever `getState().ui.isPaused` is true — in particular for the
whole span between the pause dispatch and the resume dispatch of an
in-flight encounter — the keydown listener returns without producing any
player action (move, rest, openInventory, search) or opening help. -/
theorem paused_input_discarded (s : GameState) (key : String)
    (h : s.ui.isPaused = true) :
    keydownListener s key = PlayerAction.noAction := by
  unfold keydownListener
  rw [h]
  simp

/-- Witness for C1: a concrete paused state discards a movement key. -/
theorem paused_input_discarded_witness :
    { createInitialState with
        ui := { isPaused := true, windows := [] } }.ui.isPaused = true ∧
    keydownListener
      { createInitialState with ui := { isPaused := true, windows := [] } }
      "ArrowLeft" = PlayerAction.noAction :=
  ⟨rfl, paused_input_discarded _ "ArrowLeft" rfl⟩

/-- C2 counterexample: with difficulty 0 and the draw `u = 0` (a value
`Math.random()` can return), the guard `Math.random() > encounterChance`
is false, so the code DOES trigger an encounter, while the claim
(`trigger iff u < d/10`, and `d = 0` never triggers) predicts no trigger:
`0 < 0 / 10` is false. -/
theorem trigger_at_zero_difficulty_counterexample :
    encounterTriggered 0 0 = true ∧ ¬((0 : ℚ) < 0 / 10) := by
  constructor
  · simp [encounterTriggered]
  · norm_num

/-- C2 amended: an encounter is triggered iff the draw satisfies
`u ≤ d / 10` (not-greater rather than strictly-less); consequently with
`d = 10` every draw in `[0, 1)` triggers, and with `d = 0` a trigger occurs
exactly on the boundary draw `u = 0`. -/
theorem trigger_iff_draw_le_difficulty_tenth (d u : ℚ)
    (h0 : 0 ≤ u) (h1 : u < 1) :
    (encounterTriggered d u = true ↔ u ≤ d / 10)
    ∧ encounterTriggered 10 u = true
    ∧ (encounterTriggered 0 u = true ↔ u = 0) := by
  have hiff : ∀ d' : ℚ, encounterTriggered d' u = true ↔ u ≤ d' / 10 := by
    intro d'
    simp [encounterTriggered, not_lt]
  refine ⟨hiff d, ?_, ?_⟩
  · rw [hiff 10]
    norm_num
    exact h1.le
  · rw [hiff 0]
    constructor
    · intro h
      have : u ≤ 0 := by simpa using h
      exact le_antisymm this h0
    · intro h
      simp [h]

/-- Witness for C2 (amended): at `d = 5`, `u = 1/2` the boundary draw
triggers. -/
theorem trigger_iff_draw_le_difficulty_tenth_witness :
    (0 : ℚ) ≤ 1 / 2 ∧ (1 : ℚ) / 2 < 1 ∧
    (encounterTriggered 5 (1 / 2) = true ↔ (1 : ℚ) / 2 ≤ 5 / 10) :=
  ⟨by norm_num, by norm_num,
    (trigger_iff_draw_le_difficulty_tenth 5 (1 / 2) (by norm_num)
      (by norm_num)).1⟩

/-- C3: with an empty biome-filtered candidate set the sampler does NOT
skip the encounter: `validMonsters.find(...) || validMonsters[0]` is
`undefined`, and building the instance reads `chosenMonster.abilities` on
`undefined`, which throws an uncaught TypeError (modelled as the
`undefinedMonsterError` outcome) — contradicting the required skip. -/
theorem empty_candidates_throw :
    checkForEncounters swampWorld [desertMonster] swampState 0 0 0
      (some "text") = (CheckOutcome.undefinedMonsterError, []) := by
  have hfilter : filterByBiome [desertMonster] (some "swamp") = [] := by
    simp [filterByBiome, desertMonster, commonMonster]
  have hsel : selectMonster (filterByBiome [desertMonster]
      (some "swamp")) 0 = none := by
    rw [hfilter]
    simp [selectMonster, selectMonsterRoll, findByWeight]
  have htrig : encounterTriggered dangerTerrain.difficulty 0 = true := by
    norm_num [encounterTriggered, dangerTerrain]
  have hterr : swampState.world.currentTerrain = some dangerTerrain := rfl
  have hbiome : swampState.world.currentBiome = some "swamp" := rfl
  unfold checkForEncounters
  rw [hterr]
  simp [htrig, hbiome, hsel]

/-- C4: `generateAi` has no catch: on a failed fetch (or a body on which
`resp.json()` throws) the effect trace stops after the pause dispatch and
the POST — the resume dispatch (`ui.isPaused = false`) never occurs and no
fallback description is produced, so the game is left paused, contradicting
the claimed recovery. -/
theorem ai_failure_leaves_game_paused :
    (generateAi "p" none).2 = none ∧
    (generateAi "p" none).1 =
      [Effect.dispatchUIPaused true,
       Effect.postRequest "/api/gen"
         (jsStringify (JsValue.obj [("prompt", JsValue.str "p")]))] ∧
    Effect.dispatchUIPaused false ∉ (generateAi "p" none).1 := by
  refine ⟨rfl, rfl, ?_⟩
  simp [generateAi]

/-- C5: for a non-empty biome-filtered candidate list, every weight
`highestRarity - rarity + 1` is at least 1, `totalWeight` is the sum of the
weights, and for a roll `r` in `[0, totalWeight)` the selection is the
first candidate in catalog iteration order whose cumulative weight strictly
exceeds `r`; when the scan matches nothing the selection falls back to the
first candidate. -/
theorem weighted_selection_first_exceeding (l : List Monster) (hne : l ≠ [])
    (r : ℚ) (h0 : 0 ≤ r) (h1 : r < (totalWeight l : ℚ)) :
    (∀ m ∈ l, 1 ≤ monsterWeight (highestRarity l) m)
    ∧ totalWeight l = (l.map (monsterWeight (highestRarity l))).sum
    ∧ (∃ i : Fin l.length,
        selectMonsterRoll l r = some (l.get i)
        ∧ r < (specCumulativeWeight (highestRarity l) l (i.val + 1) : ℚ)
        ∧ ∀ j < i.val,
            (specCumulativeWeight (highestRarity l) l (j + 1) : ℚ) ≤ r)
    ∧ ∀ r2 : ℚ, findByWeight (highestRarity l) r2 0 l = none →
        selectMonsterRoll l r2 = l.head? := by
  refine ⟨?_, totalWeight_eq_sum l, ?_, ?_⟩
  · intro m hm
    have := rarity_le_highestRarity hm
    unfold monsterWeight
    omega
  · rcases findByWeight_characterization (highestRarity l) r l 0 with
      ⟨hnone, hall⟩ | ⟨i, hsome, hcum, hfirst⟩
    · exfalso
      have hlen : 0 < l.length := List.length_pos.mpr hne
      have hle := hall (l.length - 1) (by omega)
      have hfull : specCumulativeWeight (highestRarity l) l (l.length - 1 + 1) =
          totalWeight l := by
        have hidx : l.length - 1 + 1 = l.length := by omega
        rw [hidx, totalWeight_eq_sum]
        simp [specCumulativeWeight]
      rw [hfull] at hle
      rw [zero_add] at hle
      linarith
    · refine ⟨i, ?_, ?_, ?_⟩
      · simp [selectMonsterRoll, hsome]
      · simpa using hcum
      · intro j hj
        simpa using hfirst j hj
  · intro r2 h
    simp [selectMonsterRoll, h]

/-- Witness for C5: the scenario catalog with rarities 1 and 5 and the roll
`r = 0` (weights `[5, 1]`, `totalWeight = 6`). -/
theorem weighted_selection_first_exceeding_witness :
    testCatalog ≠ [] ∧ (0 : ℚ) ≤ 0 ∧ (0 : ℚ) < (totalWeight testCatalog : ℚ) ∧
    ((∀ m ∈ testCatalog, 1 ≤ monsterWeight (highestRarity testCatalog) m)
      ∧ totalWeight testCatalog =
          (testCatalog.map (monsterWeight (highestRarity testCatalog))).sum
      ∧ (∃ i : Fin testCatalog.length,
          selectMonsterRoll testCatalog 0 = some (testCatalog.get i)
          ∧ (0 : ℚ) <
              (specCumulativeWeight (highestRarity testCatalog) testCatalog
                (i.val + 1) : ℚ)
          ∧ ∀ j < i.val,
              (specCumulativeWeight (highestRarity testCatalog) testCatalog
                (j + 1) : ℚ) ≤ 0)
      ∧ ∀ r2 : ℚ,
          findByWeight (highestRarity testCatalog) r2 0 testCatalog = none →
            selectMonsterRoll testCatalog r2 = testCatalog.head?) :=
  ⟨by simp [testCatalog], le_refl 0,
    by norm_num [totalWeight, testCatalog, highestRarity, monsterWeight,
      commonMonster, rareMonster],
    weighted_selection_first_exceeding testCatalog (by simp [testCatalog]) 0
      (le_refl 0)
      (by norm_num [totalWeight, testCatalog, highestRarity, monsterWeight,
        commonMonster, rareMonster])⟩

/-- C6: for every instance rolled from a template with
`minLevel ≤ maxLevel` and a draw in `[0, 1)`, the level is an integer in
`[minLevel, maxLevel]` inclusive, both endpoints are reachable by some
draw, and `maxHealth` equals `level * baseHealth` exactly. -/
theorem level_roll_bounds (m : Monster) (u : ℚ)
    (hml : m.minLevel ≤ m.maxLevel) (h0 : 0 ≤ u) (h1 : u < 1) :
    (m.minLevel ≤ (mkMonsterInstance m u).level
      ∧ (mkMonsterInstance m u).level ≤ m.maxLevel
      ∧ (mkMonsterInstance m u).maxHealth =
          ((mkMonsterInstance m u).level : ℚ) * m.baseHealth)
    ∧ (∃ v : ℚ, 0 ≤ v ∧ v < 1 ∧ (mkMonsterInstance m v).level = m.minLevel)
    ∧ (∃ v : ℚ, 0 ≤ v ∧ v < 1 ∧ (mkMonsterInstance m v).level = m.maxLevel) := by
  have hspan : (0 : ℚ) ≤ (m.maxLevel : ℚ) - (m.minLevel : ℚ) := by
    have : (m.minLevel : ℚ) ≤ (m.maxLevel : ℚ) := by exact_mod_cast hml
    linarith
  have hlevel_min : ∀ w : ℚ, 0 ≤ w → m.minLevel ≤ rollLevel m w := by
    intro w hw
    unfold rollLevel jsRound
    rw [Int.le_floor]
    have hnn : 0 ≤ w * ((m.maxLevel : ℚ) - (m.minLevel : ℚ)) :=
      mul_nonneg hw hspan
    push_cast
    linarith
  have hlevel_max : ∀ w : ℚ, w < 1 → 0 ≤ w → rollLevel m w ≤ m.maxLevel := by
    intro w hw hw0
    unfold rollLevel jsRound
    have hxle : w * ((m.maxLevel : ℚ) - (m.minLevel : ℚ)) ≤
        (m.maxLevel : ℚ) - (m.minLevel : ℚ) := by
      nlinarith
    have : ⌊w * ((m.maxLevel : ℚ) - (m.minLevel : ℚ)) + (m.minLevel : ℚ) +
        1 / 2⌋ < m.maxLevel + 1 := by
      rw [Int.floor_lt]
      push_cast
      linarith
    omega
  have hmin_reach : (mkMonsterInstance m 0).level = m.minLevel := by
    show rollLevel m 0 = m.minLevel
    unfold rollLevel jsRound
    rw [zero_mul, zero_add]
    rw [Int.floor_eq_iff]
    constructor
    · push_cast; linarith
    · push_cast; linarith
  refine ⟨⟨hlevel_min u h0, hlevel_max u h1 h0, rfl⟩,
    ⟨0, le_refl 0, by norm_num, hmin_reach⟩, ?_⟩
  by_cases heq : m.minLevel = m.maxLevel
  · exact ⟨0, le_refl 0, by norm_num, by rw [hmin_reach, heq]⟩
  · have hlt : m.minLevel < m.maxLevel := lt_of_le_of_ne hml heq
    have hs1 : (1 : ℚ) ≤ (m.maxLevel : ℚ) - (m.minLevel : ℚ) := by
      have h : m.minLevel + 1 ≤ m.maxLevel := hlt
      have h2 : (m.minLevel : ℚ) + 1 ≤ (m.maxLevel : ℚ) := by exact_mod_cast h
      linarith
    set s : ℚ := (m.maxLevel : ℚ) - (m.minLevel : ℚ) with hs
    have hspos : 0 < s := lt_of_lt_of_le one_pos hs1
    refine ⟨1 - 1 / (2 * s), ?_, ?_, ?_⟩
    · have h2s : (2 : ℚ) ≤ 2 * s := by linarith
      have : 1 / (2 * s) ≤ 1 / 2 := by
        apply div_le_div_of_nonneg_left (by norm_num) (by norm_num) h2s
      linarith
    · have : 0 < 1 / (2 * s) := by positivity
      linarith
    · show rollLevel m (1 - 1 / (2 * s)) = m.maxLevel
      unfold rollLevel jsRound
      have hx : (1 - 1 / (2 * s)) * s + (m.minLevel : ℚ) =
          (m.maxLevel : ℚ) - 1 / 2 := by
        field_simp
        ring
      rw [← hs, hx]
      rw [Int.floor_eq_iff]
      constructor
      · push_cast; linarith
      · push_cast; linarith

/-- Witness for C6: the concrete template with levels 1 to 3 at the draw
`u = 1/2`. -/
theorem level_roll_bounds_witness :
    commonMonster.minLevel ≤ commonMonster.maxLevel ∧ (0 : ℚ) ≤ 1 / 2 ∧
    (1 : ℚ) / 2 < 1 ∧
    ((commonMonster.minLevel ≤ (mkMonsterInstance commonMonster (1 / 2)).level
      ∧ (mkMonsterInstance commonMonster (1 / 2)).level ≤
          commonMonster.maxLevel
      ∧ (mkMonsterInstance commonMonster (1 / 2)).maxHealth =
          ((mkMonsterInstance commonMonster (1 / 2)).level : ℚ) *
            commonMonster.baseHealth)
    ∧ (∃ v : ℚ, 0 ≤ v ∧ v < 1 ∧
        (mkMonsterInstance commonMonster v).level = commonMonster.minLevel)
    ∧ (∃ v : ℚ, 0 ≤ v ∧ v < 1 ∧
        (mkMonsterInstance commonMonster v).level = commonMonster.maxLevel)) :=
  ⟨by norm_num [commonMonster], by norm_num, by norm_num,
    level_roll_bounds commonMonster (1 / 2) (by norm_num [commonMonster])
      (by norm_num) (by norm_num)⟩

/-- C7: when no terrain is observed (`world.currentTerrain` is null),
`checkForEncounters` returns at once — for every possible draw and fetch
outcome the result is the no-terrain early return with an empty effect
trace: no state dispatch, no POST, no event emission. -/
theorem no_terrain_no_encounter (w : WorldModel) (ms : List Monster)
    (s : GameState) (u1 u2 u3 : ℚ) (fetchResult : Option String)
    (h : s.world.currentTerrain = none) :
    checkForEncounters w ms s u1 u2 u3 fetchResult =
      (CheckOutcome.noTerrain, []) := by
  unfold checkForEncounters
  rw [h]

/-- Witness for C7: the initial state observes no terrain. -/
theorem no_terrain_no_encounter_witness :
    createInitialState.world.currentTerrain = none ∧
    checkForEncounters swampWorld testCatalog createInitialState 0 0 0
      (some "text") = (CheckOutcome.noTerrain, []) :=
  ⟨rfl, no_terrain_no_encounter swampWorld testCatalog createInitialState
    0 0 0 (some "text") rfl⟩

/-- C8 counterexample: in a concrete move where the stored (pre-move) world
observation is the calm terrain but the terrain of the moved-to position is
the dangerous swamp, the encounter check of the PLAYER_MOVE handler produces
`noTrigger` (it read the stale difficulty-0 terrain), while the same check
run after `updatePlayerWorldInfo` — the order the claim asserts — produces
an encounter: the check therefore does NOT observe the moved-to terrain. -/
theorem stale_terrain_counterexample :
    (playerMoveHandler swampWorld testCatalog staleState (1 / 2) 0 0
        (some "x")).1.1 = CheckOutcome.noTrigger ∧
    (checkForEncounters swampWorld testCatalog
        (updatePlayerWorldInfo swampWorld staleState) (1 / 2) 0 0
        (some "x")).1 =
      CheckOutcome.encounter (mkMonsterInstance commonMonster 0) := by
  constructor
  · have hterr : staleState.world.currentTerrain = some calmTerrain := rfl
    show (checkForEncounters swampWorld testCatalog staleState (1 / 2) 0 0
      (some "x")).1 = CheckOutcome.noTrigger
    unfold checkForEncounters
    rw [hterr]
    norm_num [encounterTriggered, calmTerrain]
  · apply checkForEncounters_outcome_encounter _ _ _ _ _ _ dangerTerrain
    · rfl
    · norm_num [encounterTriggered, dangerTerrain]
    · show selectMonster (filterByBiome testCatalog (some "swamp")) 0 =
        some commonMonster
      exact select_testCatalog_zero

/-- C8 amended: the PLAYER_MOVE subscription invokes `checkForEncounters`
BEFORE `updatePlayerWorldInfo`, so the encounter check observes the world
info stored before the move; the result of the check is independent of the
terrain lookup of the world generator (it never calls `getTerrain`, only the
pre-move state snapshot and `getAdjacentTerrain`), and the `world` subtree
is updated to the terrain of the new position only by the subsequent
`updatePlayerWorldInfo` dispatch. -/
theorem check_precedes_world_update (w w2 : WorldModel)
    (ms : List Monster) (s : GameState) (u1 u2 u3 : ℚ)
    (r : Option String)
    (h : w2.getAdjacentTerrain = w.getAdjacentTerrain) :
    (playerMoveHandler w ms s u1 u2 u3 r).1 =
      checkForEncounters w ms s u1 u2 u3 r
    ∧ (playerMoveHandler w ms s u1 u2 u3 r).2 = updatePlayerWorldInfo w s
    ∧ (playerMoveHandler w2 ms s u1 u2 u3 r).1 =
        (playerMoveHandler w ms s u1 u2 u3 r).1 := by
  refine ⟨rfl, rfl, ?_⟩
  show checkForEncounters w2 ms s u1 u2 u3 r =
    checkForEncounters w ms s u1 u2 u3 r
  unfold checkForEncounters
  rw [h]

/-- Witness for C8 (amended): two concrete worlds differing only in
`getTerrain` yield identical encounter-check results on a concrete move. -/
theorem check_precedes_world_update_witness :
    calmLookupWorld.getAdjacentTerrain = swampWorld.getAdjacentTerrain ∧
    ((playerMoveHandler swampWorld testCatalog staleState 0 0 0
        (some "x")).1 =
      checkForEncounters swampWorld testCatalog staleState 0 0 0 (some "x")
    ∧ (playerMoveHandler swampWorld testCatalog staleState 0 0 0
        (some "x")).2 = updatePlayerWorldInfo swampWorld staleState
    ∧ (playerMoveHandler calmLookupWorld testCatalog staleState 0 0 0
        (some "x")).1 =
        (playerMoveHandler swampWorld testCatalog staleState 0 0 0
          (some "x")).1) :=
  ⟨rfl, check_precedes_world_update swampWorld calmLookupWorld testCatalog
    staleState 0 0 0 (some "x") rfl⟩

/-- C9: for every triggered encounter whose sampling succeeds and whose AI
call returns `text`, the effect trace is exactly: pause dispatch, then one
POST to `/api/gen` whose body is `JSON.stringify({prompt})` with `prompt`
the JSON serialization of `{currentTerrain, monster, playerState,
surroundingTerrain}`, then the resume dispatch, then the WINDOW_OPEN
emission whose content carries the generated text. -/
theorem encounter_pause_post_resume_open (w : WorldModel)
    (ms : List Monster) (s : GameState) (u1 u2 u3 : ℚ) (t : Terrain)
    (m : Monster) (text : String)
    (ht : s.world.currentTerrain = some t)
    (htrig : encounterTriggered t.difficulty u1 = true)
    (hsel : selectMonster (filterByBiome ms s.world.currentBiome) u2 =
      some m) :
    checkForEncounters w ms s u1 u2 u3 (some text) =
      (CheckOutcome.encounter (mkMonsterInstance m u3),
       [Effect.dispatchUIPaused true,
        Effect.postRequest "/api/gen"
          (jsStringify (JsValue.obj [("prompt", JsValue.str
            (jsStringify (JsValue.obj
              [("currentTerrain", JsValue.str
                 (currentTerrainString s.player.position
                   s.world.currentBiome t)),
               ("monster", monsterInstanceJson (mkMonsterInstance m u3)),
               ("playerState", playerJson s.player),
               ("surroundingTerrain", JsValue.arr
                 (((w.getAdjacentTerrain s.player.position.x
                     s.player.position.y 2).map
                   adjacentCellString).map JsValue.str))])))])),
        Effect.dispatchUIPaused false,
        Effect.emitWindowOpen "Encounter!" [text] ["Close"]]) ∧
    ((checkForEncounters w ms s u1 u2 u3 (some text)).2.countP
      Effect.isPost) = 1 := by
  have hmain : checkForEncounters w ms s u1 u2 u3 (some text) =
      (CheckOutcome.encounter (mkMonsterInstance m u3),
       [Effect.dispatchUIPaused true,
        Effect.postRequest "/api/gen"
          (jsStringify (JsValue.obj [("prompt", JsValue.str
            (jsStringify (JsValue.obj
              [("currentTerrain", JsValue.str
                 (currentTerrainString s.player.position
                   s.world.currentBiome t)),
               ("monster", monsterInstanceJson (mkMonsterInstance m u3)),
               ("playerState", playerJson s.player),
               ("surroundingTerrain", JsValue.arr
                 (((w.getAdjacentTerrain s.player.position.x
                     s.player.position.y 2).map
                   adjacentCellString).map JsValue.str))])))])),
        Effect.dispatchUIPaused false,
        Effect.emitWindowOpen "Encounter!" [text] ["Close"]]) := by
    unfold checkForEncounters
    rw [ht]
    simp [htrig, hsel, generateAi]
  refine ⟨hmain, ?_⟩
  rw [hmain]
  simp [List.countP_cons, Effect.isPost]

/-- Witness for C9: the dangerous swamp state with draws 0, a two-monster
catalog and a successful AI response. -/
theorem encounter_pause_post_resume_open_witness :
    swampState.world.currentTerrain = some dangerTerrain ∧
    encounterTriggered dangerTerrain.difficulty 0 = true ∧
    selectMonster (filterByBiome testCatalog swampState.world.currentBiome)
      0 = some commonMonster ∧
    (checkForEncounters swampWorld testCatalog swampState 0 0 0
        (some "An ambush!") =
      (CheckOutcome.encounter (mkMonsterInstance commonMonster 0),
       [Effect.dispatchUIPaused true,
        Effect.postRequest "/api/gen"
          (jsStringify (JsValue.obj [("prompt", JsValue.str
            (jsStringify (JsValue.obj
              [("currentTerrain", JsValue.str
                 (currentTerrainString swampState.player.position
                   swampState.world.currentBiome dangerTerrain)),
               ("monster", monsterInstanceJson
                 (mkMonsterInstance commonMonster 0)),
               ("playerState", playerJson swampState.player),
               ("surroundingTerrain", JsValue.arr
                 (((swampWorld.getAdjacentTerrain
                     swampState.player.position.x
                     swampState.player.position.y 2).map
                   adjacentCellString).map JsValue.str))])))])),
        Effect.dispatchUIPaused false,
        Effect.emitWindowOpen "Encounter!" ["An ambush!"] ["Close"]]) ∧
    ((checkForEncounters swampWorld testCatalog swampState 0 0 0
        (some "An ambush!")).2.countP Effect.isPost) = 1) := by
  have htrig : encounterTriggered dangerTerrain.difficulty 0 = true := by
    norm_num [encounterTriggered, dangerTerrain]
  have hsel : selectMonster (filterByBiome testCatalog
      swampState.world.currentBiome) 0 = some commonMonster := by
    have hbiome : swampState.world.currentBiome = some "swamp" := rfl
    rw [hbiome]
    exact select_testCatalog_zero
  exact ⟨rfl, htrig, hsel,
    encounter_pause_post_resume_open swampWorld testCatalog swampState
      0 0 0 dangerTerrain commonMonster "An ambush!" rfl htrig hsel⟩

/-- C10: calling `Canvas.setFont` without the optional style argument sets
the font string to `"{size}px {name} undefined"` — the literal text
`undefined` is interpolated, not omitted. -/
theorem setFont_without_style_interpolates_undefined
    (c : CanvasState) (size : ℕ) (name : String) :
    (Canvas.setFont c size name none).font =
      toString size ++ "px " ++ name ++ " undefined" := by
  simp only [Canvas.setFont, jsTemplateOpt, String.append_assoc]
  rfl
